import Mathlib

/-!
Verification of the agent-identity and session-authentication core of the
clawsino CLI client (scripts/clawsino.py), as a shallow embedding.

Modelling conventions:
* JSON string fields that the Python code reads with `dict.get` are modelled
  as `Option String` where absence matters (network responses) and as plain
  `String` where the code only ever tests truthiness (store records, with
  `""` standing for an absent-or-empty field, which Python treats alike).
* The credential store is a pair of finite-looking maps, embedded as
  functions `String → Option _`; an entry equal to `emptyAgentEntry`
  plays the role of the falsy empty dict `\x7b\x7d` in Python.
* Randomness (keypair generation, `os.urandom`) and network responses are
  inputs to the embedded functions: a run of the Python code corresponds to
  one choice of these inputs.
* Side effects (store saves, network requests, signing) are recorded in an
  explicit event trace so that ordering claims can be stated.
-/

/-- Python `str.strip()` with no arguments: remove leading and trailing
whitespace. -/
def String.pyStrip (s : String) : String :=
  String.mk
    (((s.toList.dropWhile Char.isWhitespace).reverse.dropWhile
        Char.isWhitespace).reverse)

namespace Clawsino

/-- Python truthiness of an optional string: `None` and `""` are falsy. -/
def pyTruthyStr : Option String → Bool
  | none => false
  | some s => s != ""

/-- One per-handle agent record in the persisted store.  Fields mirror the
JSON keys used by `scripts/clawsino.py`; `""` models an absent field. -/
structure AgentEntry where
  publicKeyB64 : String
  privateKeyPkcs8B64 : String
  lastSessionToken : String
  lastSessionExpiresAt : String
deriving Repr, DecidableEq

/-- The record corresponding to the Python empty dict used as a default. -/
def emptyAgentEntry : AgentEntry :=
  { publicKeyB64 := "", privateKeyPkcs8B64 := "", lastSessionToken := "",
    lastSessionExpiresAt := "" }

/-- The in-memory credential store: `agents` maps an agent handle to its
record, `devices` maps a device handle to its persisted public key. -/
structure Store where
  agents : String → Option AgentEntry
  devices : String → Option String

/-- The store produced by `_load_store` when no file exists. -/
def emptyStore : Store :=
  { agents := fun _ => none, devices := fun _ => none }

/-- Point update of the agent map, modelling `store["agents"][handle] = ent`. -/
def Store.setAgent (s : Store) (handle : String) (ent : AgentEntry) : Store :=
  { s with agents := fun k => if k = handle then some ent else s.agents k }

/-- Point update of the device map, modelling `devices[key] = pub`. -/
def Store.setDevice (s : Store) (key pub : String) : Store :=
  { s with devices := fun k => if k = key then some pub else s.devices k }

/-- A freshly generated ed25519 keypair, already encoded the way
`_ensure_agent_keypair` encodes it (raw public key and PKCS8 private key,
both base64).  The CSPRNG output is an input of the model. -/
structure Keypair where
  publicKeyB64 : String
  privateKeyPkcs8B64 : String
deriving Repr, DecidableEq

/-- Embedding of `_ensure_agent_keypair(store, handle)`: returns the agent
record together with the updated store.  The `fresh` argument stands for the
keypair the CSPRNG would produce if generation is reached. -/
def ensureAgentKeypair (store : Store) (handle : String) (fresh : Keypair) :
    AgentEntry × Store :=
  let ent := (store.agents handle).getD emptyAgentEntry
  if ent.publicKeyB64 != "" && ent.privateKeyPkcs8B64 != "" then
    (ent, store.setAgent handle ent)
  else
    let ent2 := { ent with publicKeyB64 := fresh.publicKeyB64,
                           privateKeyPkcs8B64 := fresh.privateKeyPkcs8B64 }
    (ent2, store.setAgent handle ent2)

/-- A non-2xx HTTP outcome: status code and raw response body. -/
structure HttpError where
  code : Nat
  body : String
deriving Repr, DecidableEq

/-- Body of a response from `POST /v1/agent/register`; `none` models an
absent JSON field. -/
structure RegisterResp where
  challengeId : Option String
  messageToSign : Option String
deriving Repr, DecidableEq

/-- Body of a response from `POST /v1/agent/verify`. -/
structure VerifyResp where
  sessionToken : Option String
  expiresAt : Option String
deriving Repr, DecidableEq

/-- The request URL built by `_req`: `base.rstrip("/") + path`. -/
def requestUrl (base path : String) : String :=
  (base.dropRightWhile (fun c => c == '/')) ++ path

/-- The message `_req` raises for a non-2xx response:
`HTTP <code> <url>: <body>`. -/
def reqErrMsg (base path : String) (code : Nat) (body : String) : String :=
  "HTTP " ++ toString code ++ " " ++ requestUrl base path ++ ": " ++ body

/-- Embedding of the HTTP helper `_req`: the remote outcome for the single
request it issues is an input; a non-2xx outcome becomes a fatal error
carrying `reqErrMsg`, with no retry. -/
def req {α : Type} (base path : String) (outcome : Except HttpError α) :
    Except String α :=
  match outcome with
  | .ok v => .ok v
  | .error e => .error (reqErrMsg base path e.code e.body)

/-- The remote authenticator as seen by one `_agent_login` run: the outcome
of its register request and of its verify request. -/
structure NetOracle where
  register : Except HttpError RegisterResp
  verify : Except HttpError VerifyResp

/-- All inputs a run of `_agent_login` consumes besides the store on disk:
CSPRNG output, network outcomes, and the ed25519 signing function
(private key material and message in, base64 signature out). -/
structure LoginEnv where
  fresh : Keypair
  net : NetOracle
  sign : String → String → String

/-- Side effects of a login run, in order of occurrence. -/
inductive Event
  | saveStore (s : Store)
  | netRegister (handle : String)
  | signMsg (msg : String)
  | netVerify (challengeId publicKey signature : String)

/-- Result of a run of `_agent_login`: the outcome, the store on disk when
the run ends, and the trace of side effects. -/
structure LoginRun where
  result : Except String VerifyResp
  disk : Store
  trace : List Event

/-- Models `store["agents"].get(handle) or ent`: a missing entry, or one
equal to the falsy empty dict, falls back to `ent`. -/
def entryOrDefault : Option AgentEntry → AgentEntry → AgentEntry
  | some e, d => if e = emptyAgentEntry then d else e
  | none, d => d

/-- Embedding of `_agent_login(base, handle)`.  `disk` is the store the
initial `_load_store` returns; saves replace it.  The strict order of the
Python function is kept: ensure keypair, save, register, field check, sign,
verify, reload, persist token. -/
def agentLogin (base : String) (disk : Store) (handle : String)
    (env : LoginEnv) : LoginRun :=
  let p := ensureAgentKeypair disk handle env.fresh
  let ent := p.1
  let disk1 := p.2
  let tr1 : List Event := [.saveStore disk1, .netRegister handle]
  match req base "/v1/agent/register" env.net.register with
  | .error m => { result := .error m, disk := disk1, trace := tr1 }
  | .ok reg =>
    if !(pyTruthyStr reg.messageToSign) || !(pyTruthyStr reg.challengeId) then
      { result := .error ("agent/register failed: " ++ reprStr reg),
        disk := disk1, trace := tr1 }
    else
      let msg := reg.messageToSign.getD ""
      let cid := reg.challengeId.getD ""
      let sig := env.sign ent.privateKeyPkcs8B64 msg
      let tr2 := tr1 ++ [.signMsg msg, .netVerify cid ent.publicKeyB64 sig]
      match req base "/v1/agent/verify" env.net.verify with
      | .error m => { result := .error m, disk := disk1, trace := tr2 }
      | .ok ver =>
        let store2 := disk1
        let ent2 := entryOrDefault (store2.agents handle) ent
        let ent3 := { ent2 with
          lastSessionToken := ver.sessionToken.getD "",
          lastSessionExpiresAt := ver.expiresAt.getD "" }
        let disk2 := store2.setAgent handle ent3
        { result := .ok ver, disk := disk2,
          trace := tr2 ++ [.saveStore disk2] }

/-- Embedding of `_agent_token_from_store(handle)`. -/
def agentTokenFromStore (store : Store) (handle : String) : Option String :=
  let ent := (store.agents handle).getD emptyAgentEntry
  let tok := ent.lastSessionToken.pyStrip
  if tok == "" then none else some tok

/-- Embedding of the token resolution in `main`: the trimmed explicit
`--token` wins; otherwise a non-blank `--agent` handle is looked up in the
store; otherwise no token. -/
def resolveToken (explicitToken agent : String) (store : Store) :
    Option String :=
  let t := explicitToken.pyStrip
  if t != "" then some t
  else if agent.pyStrip != "" then agentTokenFromStore store agent.pyStrip
  else none

/-- The store key used by the `device-start` branch of `main`:
`args.handle.strip() or "default"`. -/
def deviceStoreKey (handle : String) : String :=
  if handle.pyStrip == "" then "default" else handle.pyStrip

/-- Result of the `device-start` branch: the public key sent in the request
body, the rest of the request body, the resulting store on disk, and
whether a fresh key was generated (and hence a save performed). -/
structure DeviceStartRun where
  sentPublicKey : String
  requestedHandle : String
  clientName : String
  disk : Store
  generated : Bool

/-- Embedding of the `device-start` branch of `main`: look the handle up in
`store.devices` (blank handles map to `"default"`), reuse a recorded
non-blank key, otherwise persist `freshKeyB64`, the base64 encoding of
`os.urandom(32)`.  The request body carries the key, the client name, and
the raw (untrimmed) requested handle. -/
def deviceStart (disk : Store) (handle clientName freshKeyB64 : String) :
    DeviceStartRun :=
  let key := deviceStoreKey handle
  let pub := ((disk.devices key).getD "").pyStrip
  if pub != "" then
    { sentPublicKey := pub, requestedHandle := handle,
      clientName := clientName, disk := disk, generated := false }
  else
    { sentPublicKey := freshKeyB64, requestedHandle := handle,
      clientName := clientName, disk := disk.setDevice key freshKeyB64,
      generated := true }

/-- What `_load_store` finds at the store path: no file, a file parsing to
a store, or a file that fails to parse (`json.load` raises). -/
inductive DiskFile
  | missing
  | valid (s : Store)
  | malformed (raw : String)

/-- Embedding of `_load_store()`: a missing file yields the empty store
(two empty mappings) and is not an error; a malformed file is fatal. -/
def loadStore : DiskFile → Except String Store
  | .missing => .ok emptyStore
  | .valid s => .ok s
  | .malformed raw => .error ("store file is not valid JSON: " ++ raw)

/-- The temporary path `_save_store` writes to: `p + ".tmp"`. -/
def tmpPath (p : String) : String := p ++ ".tmp"

/-- Directory part of a path: everything up to the last slash. -/
def dirname (p : String) : String :=
  String.mk ((p.toList.reverse.dropWhile (fun c => c != '/')).reverse)

/-- Filesystem operations `_save_store` performs after `os.makedirs`:
writes touch only the temporary file, `os.replace` atomically moves the
temporary file over the target. -/
inductive FsOp
  | writeTmp (content : String)
  | renameTmpOverTarget

/-- Contents of the two files `_save_store` touches; `none` means the file
does not exist. -/
structure FsState where
  target : Option String
  tmp : Option String
deriving Repr, DecidableEq

/-- Effect of one filesystem operation. -/
def FsState.applyOp : FsState → FsOp → FsState
  | s, .writeTmp c => { s with tmp := some c }
  | s, .renameTmpOverTarget => { target := s.tmp, tmp := none }

/-- Effect of a sequence of filesystem operations. -/
def FsState.applyAll (s : FsState) (ops : List FsOp) : FsState :=
  ops.foldl FsState.applyOp s

/-- The operation sequence of `_save_store` on a store whose serialization
is `serialized`: write the serialization plus a trailing newline to the
temporary file, then rename it over the target. -/
def saveStoreOps (serialized : String) : List FsOp :=
  [.writeTmp (serialized ++ "\n"), .renameTmpOverTarget]

/-- A sample login environment whose register request fails with HTTP 500,
exercising the keypair-durability guarantee. -/
def loginEnvRegisterFails : LoginEnv :=
  { fresh := { publicKeyB64 := "PUB", privateKeyPkcs8B64 := "PRIV" },
    net := { register := .error { code := 500, body := "boom" },
             verify := .error { code := 500, body := "boom" } },
    sign := fun _ msg => "SIG:" ++ msg }

/-- A sample login environment whose register response is well-formed but
lacks `messageToSign`. -/
def loginEnvRegisterMissing : LoginEnv :=
  { fresh := { publicKeyB64 := "PUB", privateKeyPkcs8B64 := "PRIV" },
    net := { register := .ok { challengeId := some "c1", messageToSign := none },
             verify := .ok { sessionToken := some "s1",
                             expiresAt := some "2099-01-01T00:00:00Z" } },
    sign := fun _ msg => "SIG:" ++ msg }

/-- A sample login environment whose verify response is well-formed but
lacks both `sessionToken` and `expiresAt`. -/
def loginEnvVerifyMissing : LoginEnv :=
  { fresh := { publicKeyB64 := "PUB", privateKeyPkcs8B64 := "PRIV" },
    net := { register := .ok { challengeId := some "c1", messageToSign := some "m1" },
             verify := .ok { sessionToken := none, expiresAt := none } },
    sign := fun _ msg => "SIG:" ++ msg }

/-! ### Helper lemmas -/

/-- On a record with both key fields populated, `ensureAgentKeypair` keeps
the record and only writes it back to the store unchanged. -/
theorem ensureAgentKeypair_populated (store : Store) (handle : String)
    (fresh : Keypair) (e0 : AgentEntry) (h0 : store.agents handle = some e0)
    (hpub : e0.publicKeyB64 ≠ "") (hpriv : e0.privateKeyPkcs8B64 ≠ "") :
    ensureAgentKeypair store handle fresh = (e0, store.setAgent handle e0) := by
  simp [ensureAgentKeypair, h0, hpub, hpriv]

/-- After `ensureAgentKeypair`, the handle maps to the returned record. -/
theorem ensureAgentKeypair_lookup (store : Store) (handle : String)
    (fresh : Keypair) :
    (ensureAgentKeypair store handle fresh).2.agents handle =
      some (ensureAgentKeypair store handle fresh).1 := by
  unfold ensureAgentKeypair
  by_cases h : (((store.agents handle).getD emptyAgentEntry).publicKeyB64 != ""
      && ((store.agents handle).getD emptyAgentEntry).privateKeyPkcs8B64 != "") = true <;>
    simp [h, Store.setAgent]

/-- The record `ensureAgentKeypair` returns has both key fields non-empty
whenever the fresh keypair does. -/
theorem ensureAgentKeypair_keys_nonempty (store : Store) (handle : String)
    (fresh : Keypair) (hp : fresh.publicKeyB64 ≠ "")
    (hq : fresh.privateKeyPkcs8B64 ≠ "") :
    (ensureAgentKeypair store handle fresh).1.publicKeyB64 ≠ "" ∧
      (ensureAgentKeypair store handle fresh).1.privateKeyPkcs8B64 ≠ "" := by
  unfold ensureAgentKeypair
  by_cases h : (((store.agents handle).getD emptyAgentEntry).publicKeyB64 != ""
      && ((store.agents handle).getD emptyAgentEntry).privateKeyPkcs8B64 != "") = true
  · simp only [h, if_true]
    simpa using h
  · simp [h, hp, hq]

/-- The trace of every login run begins with the store save, followed by
the register request. -/
theorem agentLogin_trace_head (base : String) (disk : Store) (handle : String)
    (env : LoginEnv) :
    ∃ rest, (agentLogin base disk handle env).trace =
      Event.saveStore (ensureAgentKeypair disk handle env.fresh).2 ::
        Event.netRegister handle :: rest := by
  unfold agentLogin
  split
  · exact ⟨_, rfl⟩
  · split
    · exact ⟨_, rfl⟩
    · split
      · exact ⟨_, rfl⟩
      · exact ⟨_, rfl⟩

/-- A failed login run leaves the disk at the store saved before the
network calls. -/
theorem agentLogin_error_disk (base : String) (disk : Store) (handle : String)
    (env : LoginEnv) (m : String)
    (hm : (agentLogin base disk handle env).result = Except.error m) :
    (agentLogin base disk handle env).disk =
      (ensureAgentKeypair disk handle env.fresh).2 := by
  revert hm
  unfold agentLogin
  split
  · intro _; rfl
  · split
    · intro _; rfl
    · split
      · intro _; rfl
      · intro hm; exact absurd hm (by simp)

/-- A successful login run replaces the record of the handle with the reloaded
record carrying the two token fields of the verify response. -/
theorem agentLogin_ok_disk (base : String) (disk : Store) (handle : String)
    (env : LoginEnv) (ver : VerifyResp)
    (hm : (agentLogin base disk handle env).result = Except.ok ver) :
    (agentLogin base disk handle env).disk =
      ((ensureAgentKeypair disk handle env.fresh).2).setAgent handle
        { entryOrDefault
            ((ensureAgentKeypair disk handle env.fresh).2.agents handle)
            (ensureAgentKeypair disk handle env.fresh).1 with
          lastSessionToken := ver.sessionToken.getD "",
          lastSessionExpiresAt := ver.expiresAt.getD "" } := by
  revert hm
  unfold agentLogin
  split
  · intro hm; exact absurd hm (by simp)
  · split
    · intro hm; exact absurd hm (by simp)
    · split
      · intro hm; exact absurd hm (by simp)
      · rename_i v hv
        intro hm
        have h3 : Except.ok (ε := String) v = Except.ok ver := hm
        have h2 : v = ver := Except.ok.inj h3
        subst h2
        rfl

/-- A register response with a missing or empty required field aborts the
run with the contract-violation message, before any signing. -/
theorem agentLogin_register_missing_shape (base : String) (disk : Store)
    (handle : String) (env : LoginEnv) (reg : RegisterResp)
    (hreg : env.net.register = Except.ok reg)
    (hbad : (!(pyTruthyStr reg.messageToSign) || !(pyTruthyStr reg.challengeId)) = true) :
    (agentLogin base disk handle env).result =
      Except.error ("agent/register failed: " ++ reprStr reg) ∧
    (agentLogin base disk handle env).trace =
      [Event.saveStore (ensureAgentKeypair disk handle env.fresh).2,
       Event.netRegister handle] := by
  unfold agentLogin
  rw [hreg]
  simp [req, hbad]

/-- A run with well-formed register and verify responses succeeds and
performs exactly the five effects, in order. -/
theorem agentLogin_success_shape (base : String) (disk : Store)
    (handle : String) (env : LoginEnv) (reg : RegisterResp) (ver : VerifyResp)
    (hreg : env.net.register = Except.ok reg)
    (hmsg : pyTruthyStr reg.messageToSign = true)
    (hcid : pyTruthyStr reg.challengeId = true)
    (hver : env.net.verify = Except.ok ver) :
    (agentLogin base disk handle env).result = Except.ok ver ∧
    (agentLogin base disk handle env).disk =
      ((ensureAgentKeypair disk handle env.fresh).2).setAgent handle
        { entryOrDefault
            ((ensureAgentKeypair disk handle env.fresh).2.agents handle)
            (ensureAgentKeypair disk handle env.fresh).1 with
          lastSessionToken := ver.sessionToken.getD "",
          lastSessionExpiresAt := ver.expiresAt.getD "" } ∧
    (agentLogin base disk handle env).trace =
      [Event.saveStore (ensureAgentKeypair disk handle env.fresh).2,
       Event.netRegister handle,
       Event.signMsg (reg.messageToSign.getD ""),
       Event.netVerify (reg.challengeId.getD "")
         (ensureAgentKeypair disk handle env.fresh).1.publicKeyB64
         (env.sign (ensureAgentKeypair disk handle env.fresh).1.privateKeyPkcs8B64
           (reg.messageToSign.getD "")),
       Event.saveStore ((agentLogin base disk handle env).disk)] := by
  have hshape : (agentLogin base disk handle env).result = Except.ok ver := by
    unfold agentLogin
    rw [hreg, hver]
    simp [req, hmsg, hcid]
  refine ⟨hshape, agentLogin_ok_disk base disk handle env ver hshape, ?_⟩
  rw [agentLogin_ok_disk base disk handle env ver hshape]
  unfold agentLogin
  rw [hreg, hver]
  simp [req, hmsg, hcid]

/-! ### Claim theorems -/

/-- C3: `ensureAgentKeypair` is idempotent.  If the record for `handle`
already has both key fields non-empty, the call returns that record
unchanged and leaves the agent map extensionally unchanged; consequently a
second call in sequence returns byte-identical key material. -/
theorem ensureAgentKeypair_idempotent (store : Store) (handle : String)
    (fresh : Keypair) (e0 : AgentEntry) (h0 : store.agents handle = some e0)
    (hpub : e0.publicKeyB64 ≠ "") (hpriv : e0.privateKeyPkcs8B64 ≠ "") :
    (ensureAgentKeypair store handle fresh).1 = e0 ∧
    (∀ k, (ensureAgentKeypair store handle fresh).2.agents k = store.agents k) ∧
    (∀ fresh2 : Keypair,
      (ensureAgentKeypair (ensureAgentKeypair store handle fresh).2 handle
          fresh2).1.publicKeyB64 = (ensureAgentKeypair store handle fresh).1.publicKeyB64 ∧
      (ensureAgentKeypair (ensureAgentKeypair store handle fresh).2 handle
          fresh2).1.privateKeyPkcs8B64 =
        (ensureAgentKeypair store handle fresh).1.privateKeyPkcs8B64) := by
  have h1 := ensureAgentKeypair_populated store handle fresh e0 h0 hpub hpriv
  refine ⟨by rw [h1], ?_, ?_⟩
  · intro k
    rw [h1]
    by_cases hk : k = handle <;> simp [Store.setAgent, hk, h0]
  · intro fresh2
    have h2 : (ensureAgentKeypair store handle fresh).2.agents handle = some e0 := by
      rw [h1]; simp [Store.setAgent]
    have h3 := ensureAgentKeypair_populated (ensureAgentKeypair store handle fresh).2
      handle fresh2 e0 h2 hpub hpriv
    rw [h3, h1]
    exact ⟨rfl, rfl⟩

/-- C3 witness: a populated store resolves idempotently at a concrete
handle and keypair. -/
theorem ensureAgentKeypair_idempotent_witness :
    (let e0 : AgentEntry :=
      { publicKeyB64 := "PUB", privateKeyPkcs8B64 := "PRIV",
        lastSessionToken := "", lastSessionExpiresAt := "" }
     let store : Store := (emptyStore).setAgent "alice" e0
     (ensureAgentKeypair store "alice" ⟨"NEWPUB", "NEWPRIV"⟩).1 = e0) := by
  have h := ensureAgentKeypair_idempotent
    ((emptyStore).setAgent "alice"
      { publicKeyB64 := "PUB", privateKeyPkcs8B64 := "PRIV",
        lastSessionToken := "", lastSessionExpiresAt := "" })
    "alice" ⟨"NEWPUB", "NEWPRIV"⟩
    { publicKeyB64 := "PUB", privateKeyPkcs8B64 := "PRIV",
      lastSessionToken := "", lastSessionExpiresAt := "" }
    (by simp [Store.setAgent, emptyStore]) (by simp) (by simp)
  exact h.1

/-- C7: loading a missing store file is not an error and yields a store of
exactly two empty mappings. -/
theorem loadStore_missing_is_empty :
    loadStore DiskFile.missing = Except.ok emptyStore ∧
    (∀ k, emptyStore.agents k = none) ∧
    (∀ k, emptyStore.devices k = none) :=
  ⟨rfl, fun _ => rfl, fun _ => rfl⟩

/-- C9: every non-2xx response observed by the HTTP helper is fatal, and
the error message carries the numeric status code and the raw body
verbatim. -/
theorem req_non2xx_fatal {α : Type} (base path body : String) (code : Nat) :
    req (α := α) base path (Except.error { code := code, body := body }) =
      Except.error (reqErrMsg base path code body) ∧
    (∃ mid, reqErrMsg base path code body =
      "HTTP " ++ toString code ++ mid ++ body) := by
  refine ⟨rfl, ⟨" " ++ requestUrl base path ++ ": ", ?_⟩⟩
  simp [reqErrMsg, String.append_assoc]

/-- C4: `_save_store` is atomic.  The temporary file lives in the same
directory as the target, no prefix of the operation sequence that stops
before the rename changes the target file (whatever partial content a
write leaves in the temporary file), and the full sequence installs the
complete serialization with its trailing newline. -/
theorem saveStore_atomic (p : String) (fs : FsState) (content : String) :
    dirname (tmpPath p) = dirname p ∧
    (FsState.applyAll fs ((saveStoreOps content).take 0)).target = fs.target ∧
    (FsState.applyAll fs ((saveStoreOps content).take 1)).target = fs.target ∧
    (∀ c, (FsState.applyOp fs (FsOp.writeTmp c)).target = fs.target) ∧
    (FsState.applyAll fs (saveStoreOps content)).target = some (content ++ "\n") := by
  refine ⟨?_, rfl, rfl, fun _ => rfl, rfl⟩
  unfold dirname tmpPath
  have h : (p ++ ".tmp").toList = p.toList ++ ['.', 't', 'm', 'p'] := by
    simp [String.toList]
  rw [h, List.reverse_append]
  simp [List.dropWhile]

/-- C5: token resolution precedence.  A non-blank explicit token always
wins (trimmed); otherwise a given agent handle resolves to the stored
token, trimmed, with a blank or absent stored token yielding no token; and
with both sources blank the result is no token. -/
theorem resolveToken_precedence (explicitToken agent : String) (store : Store) :
    (explicitToken.pyStrip ≠ "" →
      resolveToken explicitToken agent store = some explicitToken.pyStrip) ∧
    (explicitToken.pyStrip = "" → agent.pyStrip ≠ "" →
      resolveToken explicitToken agent store = agentTokenFromStore store agent.pyStrip ∧
      (∀ e, store.agents agent.pyStrip = some e →
        resolveToken explicitToken agent store =
          (if e.lastSessionToken.pyStrip = "" then none
           else some e.lastSessionToken.pyStrip))) ∧
    (explicitToken.pyStrip = "" → agent.pyStrip = "" →
      resolveToken explicitToken agent store = none) := by
  refine ⟨fun h => ?_, fun h ha => ⟨?_, fun e he => ?_⟩, fun h ha => ?_⟩
  · simp [resolveToken, h]
  · simp [resolveToken, h, ha]
  · simp [resolveToken, agentTokenFromStore, h, ha, he]
  · simp [resolveToken, h, ha]

/-- C5 witness: the three scenarios of the claim at concrete inputs:
explicit token wins over the stored one, a blank explicit token falls back
to the stored one, and two blank sources yield no token. -/
theorem resolveToken_precedence_witness :
    resolveToken "tok-X" "a"
        ((emptyStore).setAgent "a"
          { publicKeyB64 := "P", privateKeyPkcs8B64 := "Q",
            lastSessionToken := "tok-Y", lastSessionExpiresAt := "" }) =
      some "tok-X" ∧
    resolveToken "" "a"
        ((emptyStore).setAgent "a"
          { publicKeyB64 := "P", privateKeyPkcs8B64 := "Q",
            lastSessionToken := "tok-Y", lastSessionExpiresAt := "" }) =
      some "tok-Y" ∧
    resolveToken "" "" emptyStore = none := by
  refine ⟨?_, ?_, ?_⟩
  · have h := (resolveToken_precedence "tok-X" "a"
      ((emptyStore).setAgent "a"
        { publicKeyB64 := "P", privateKeyPkcs8B64 := "Q",
          lastSessionToken := "tok-Y", lastSessionExpiresAt := "" })).1
      (by decide)
    rw [h]; decide
  · have h := ((resolveToken_precedence "" "a"
      ((emptyStore).setAgent "a"
        { publicKeyB64 := "P", privateKeyPkcs8B64 := "Q",
          lastSessionToken := "tok-Y", lastSessionExpiresAt := "" })).2.1
      (by decide) (by decide)).2
      { publicKeyB64 := "P", privateKeyPkcs8B64 := "Q",
        lastSessionToken := "tok-Y", lastSessionExpiresAt := "" }
      (by decide)
    rw [h]; decide
  · exact (resolveToken_precedence "" "" emptyStore).2.2 (by decide) (by decide)

/-- C2: in every login run the store holding the keypair of the handle is saved
strictly before the first network request is issued; whenever the run fails,
the saved store is the final disk state, so the keypair is durable and a
retry finds the same public key. -/
theorem agentLogin_saves_before_network (base : String) (disk : Store)
    (handle : String) (env : LoginEnv)
    (hpub : env.fresh.publicKeyB64 ≠ "")
    (hpriv : env.fresh.privateKeyPkcs8B64 ≠ "") :
    (∃ rest, (agentLogin base disk handle env).trace =
      Event.saveStore (ensureAgentKeypair disk handle env.fresh).2 ::
        Event.netRegister handle :: rest) ∧
    (∃ e, (ensureAgentKeypair disk handle env.fresh).2.agents handle = some e ∧
      e.publicKeyB64 ≠ "" ∧ e.privateKeyPkcs8B64 ≠ "") ∧
    (∀ m, (agentLogin base disk handle env).result = Except.error m →
      (agentLogin base disk handle env).disk =
        (ensureAgentKeypair disk handle env.fresh).2 ∧
      ∀ fresh2 : Keypair,
        (ensureAgentKeypair (agentLogin base disk handle env).disk handle
            fresh2).1.publicKeyB64 =
          (ensureAgentKeypair disk handle env.fresh).1.publicKeyB64) := by
  have hk := ensureAgentKeypair_keys_nonempty disk handle env.fresh hpub hpriv
  have hl := ensureAgentKeypair_lookup disk handle env.fresh
  refine ⟨agentLogin_trace_head base disk handle env, ⟨_, hl, hk.1, hk.2⟩, ?_⟩
  intro m hm
  have hd := agentLogin_error_disk base disk handle env m hm
  refine ⟨hd, fun fresh2 => ?_⟩
  rw [hd, ensureAgentKeypair_populated _ handle fresh2 _ hl hk.1 hk.2]

/-- C2 witness: with a concrete failing register request, the disk ends at
the pre-network save and a retry with a different fresh keypair still finds
the first public key. -/
theorem agentLogin_saves_before_network_witness :
    ((agentLogin "https://x" emptyStore "h" loginEnvRegisterFails).disk =
      (ensureAgentKeypair emptyStore "h"
        { publicKeyB64 := "PUB", privateKeyPkcs8B64 := "PRIV" }).2) ∧
    (ensureAgentKeypair
        (agentLogin "https://x" emptyStore "h" loginEnvRegisterFails).disk "h"
        { publicKeyB64 := "PUB2", privateKeyPkcs8B64 := "PRIV2" }).1.publicKeyB64 =
      "PUB" := by
  have h := (agentLogin_saves_before_network "https://x" emptyStore "h"
      loginEnvRegisterFails (by decide) (by decide)).2.2
      (reqErrMsg "https://x" "/v1/agent/register" 500 "boom") rfl
  exact ⟨h.1, (h.2 { publicKeyB64 := "PUB2", privateKeyPkcs8B64 := "PRIV2" }).trans
    (by decide)⟩

/-- C1 counterexample: a well-formed verify response missing both
`sessionToken` and `expiresAt` is not fatal: the login run succeeds and
persists empty token fields, contradicting the claim for step 4. -/
theorem agentLogin_verify_missing_not_fatal :
    (agentLogin "https://x" emptyStore "h" loginEnvVerifyMissing).result =
      Except.ok { sessionToken := none, expiresAt := none } ∧
    ((agentLogin "https://x" emptyStore "h" loginEnvVerifyMissing).disk.agents
        "h").map (fun e => (e.lastSessionToken, e.lastSessionExpiresAt)) =
      some ("", "") :=
  ⟨rfl, rfl⟩

/-- C1 (amended): a register response lacking a non-empty `challengeId` or
`messageToSign` is fatal with a descriptive error, before any signing; a
verify response missing `sessionToken` or `expiresAt`, however, is not
fatal: the run succeeds and the missing fields are persisted as empty
strings. -/
theorem agentLogin_missing_fields (base : String) (disk : Store)
    (handle : String) (env : LoginEnv) (reg : RegisterResp)
    (hreg : env.net.register = Except.ok reg) :
    ((pyTruthyStr reg.messageToSign = false ∨ pyTruthyStr reg.challengeId = false) →
      (agentLogin base disk handle env).result =
        Except.error ("agent/register failed: " ++ reprStr reg) ∧
      (agentLogin base disk handle env).trace =
        [Event.saveStore (ensureAgentKeypair disk handle env.fresh).2,
         Event.netRegister handle]) ∧
    (∀ ver, pyTruthyStr reg.messageToSign = true →
      pyTruthyStr reg.challengeId = true →
      env.net.verify = Except.ok ver →
      (agentLogin base disk handle env).result = Except.ok ver ∧
      ((agentLogin base disk handle env).disk.agents handle).map
          (fun e => (e.lastSessionToken, e.lastSessionExpiresAt)) =
        some (ver.sessionToken.getD "", ver.expiresAt.getD "")) := by
  constructor
  · intro hbad
    have hb : (!(pyTruthyStr reg.messageToSign) ||
        !(pyTruthyStr reg.challengeId)) = true := by
      rcases hbad with h | h <;> simp [h]
    exact agentLogin_register_missing_shape base disk handle env reg hreg hb
  · intro ver hmsg hcid hver
    have hs := agentLogin_success_shape base disk handle env reg ver hreg hmsg
      hcid hver
    refine ⟨hs.1, ?_⟩
    rw [hs.2.1]
    simp [Store.setAgent]

/-- C1 witness: a register response missing `messageToSign` aborts with the
contract-violation message before signing, while a verify response missing
its fields yields a successful, silently empty, result. -/
theorem agentLogin_missing_fields_witness :
    (agentLogin "https://x" emptyStore "h" loginEnvRegisterMissing).result =
      Except.error ("agent/register failed: " ++
        reprStr (RegisterResp.mk (some "c1") none)) ∧
    (agentLogin "https://x" emptyStore "h" loginEnvVerifyMissing).result =
      Except.ok { sessionToken := none, expiresAt := none } := by
  constructor
  · exact ((agentLogin_missing_fields "https://x" emptyStore "h"
      loginEnvRegisterMissing (RegisterResp.mk (some "c1") none) rfl).1
      (Or.inl rfl)).1
  · exact ((agentLogin_missing_fields "https://x" emptyStore "h"
      loginEnvVerifyMissing (RegisterResp.mk (some "c1") (some "m1")) rfl).2
      { sessionToken := none, expiresAt := none } (by decide) (by decide)
      rfl).1

/-- C6: once both key fields are set for a handle, a login run never
overwrites them; a successful authentication replaces only the token fields
of that record, leaves every other agent record and the whole device map
unchanged, and no record is deleted; the device-start flow does not touch
the agent map at all. -/
theorem agentLogin_preserves_identity (base : String) (disk : Store)
    (handle : String) (env : LoginEnv) (e0 : AgentEntry)
    (h0 : disk.agents handle = some e0)
    (hpub : e0.publicKeyB64 ≠ "") (hpriv : e0.privateKeyPkcs8B64 ≠ "") :
    (∃ e1, (agentLogin base disk handle env).disk.agents handle = some e1 ∧
      e1.publicKeyB64 = e0.publicKeyB64 ∧
      e1.privateKeyPkcs8B64 = e0.privateKeyPkcs8B64) ∧
    (∀ k, k ≠ handle →
      (agentLogin base disk handle env).disk.agents k = disk.agents k) ∧
    (∀ k, (agentLogin base disk handle env).disk.devices k = disk.devices k) ∧
    (∀ ver, (agentLogin base disk handle env).result = Except.ok ver →
      (agentLogin base disk handle env).disk.agents handle =
        some { e0 with lastSessionToken := ver.sessionToken.getD "",
                       lastSessionExpiresAt := ver.expiresAt.getD "" }) ∧
    (∀ k, (disk.agents k).isSome →
      ((agentLogin base disk handle env).disk.agents k).isSome) ∧
    (∀ h2 c f k, (deviceStart disk h2 c f).disk.agents k = disk.agents k) := by
  have hp := ensureAgentKeypair_populated disk handle env.fresh e0 h0 hpub hpriv
  have hdev : ∀ h2 c f k, (deviceStart disk h2 c f).disk.agents k = disk.agents k := by
    intro h2 c f k
    by_cases hc : ((((disk.devices (deviceStoreKey h2)).getD "").pyStrip) != "") = true <;>
      simp [deviceStart, hc, Store.setDevice]
  cases hres : (agentLogin base disk handle env).result with
  | error m =>
    have hd := agentLogin_error_disk base disk handle env m hres
    rw [hp] at hd
    refine ⟨⟨e0, ?_, rfl, rfl⟩, ?_, ?_, ?_, ?_, hdev⟩
    · rw [hd]; simp [Store.setAgent]
    · intro k hk; rw [hd]; simp [Store.setAgent, hk]
    · intro k; rw [hd]; rfl
    · intro ver hv; exact absurd hv (by simp)
    · intro k hk
      rw [hd]
      by_cases hkh : k = handle
      · simp [Store.setAgent, hkh]
      · simpa [Store.setAgent, hkh] using hk
  | ok ver =>
    have hd := agentLogin_ok_disk base disk handle env ver hres
    rw [hp] at hd
    have he : (disk.setAgent handle e0).agents handle = some e0 := by
      simp [Store.setAgent]
    rw [he] at hd
    have he2 : entryOrDefault (some e0) e0 = e0 := by simp [entryOrDefault]
    rw [he2] at hd
    have hlook : (agentLogin base disk handle env).disk.agents handle =
        some { e0 with lastSessionToken := ver.sessionToken.getD "",
                       lastSessionExpiresAt := ver.expiresAt.getD "" } := by
      rw [hd]; simp [Store.setAgent]
    refine ⟨⟨_, hlook, rfl, rfl⟩, ?_, ?_, ?_, ?_, hdev⟩
    · intro k hk; rw [hd]; simp [Store.setAgent, hk]
    · intro k; rw [hd]; rfl
    · intro v hv
      have hvv : ver = v := Except.ok.inj hv
      subst hvv
      rw [hd]; simp [Store.setAgent]
    · intro k hk
      rw [hd]
      by_cases hkh : k = handle
      · simp [Store.setAgent, hkh]
      · simpa [Store.setAgent, hkh] using hk

/-- C6 witness: with a populated record and a failing network, the key
fields survive a login run unchanged. -/
theorem agentLogin_preserves_identity_witness :
    ((agentLogin "https://x"
        ((emptyStore).setAgent "h"
          { publicKeyB64 := "P0", privateKeyPkcs8B64 := "Q0",
            lastSessionToken := "", lastSessionExpiresAt := "" })
        "h" loginEnvRegisterFails).disk.agents "h").map
      (fun e => (e.publicKeyB64, e.privateKeyPkcs8B64)) = some ("P0", "Q0") := by
  have h := (agentLogin_preserves_identity "https://x"
    ((emptyStore).setAgent "h"
      { publicKeyB64 := "P0", privateKeyPkcs8B64 := "Q0",
        lastSessionToken := "", lastSessionExpiresAt := "" })
    "h" loginEnvRegisterFails
    { publicKeyB64 := "P0", privateKeyPkcs8B64 := "Q0",
      lastSessionToken := "", lastSessionExpiresAt := "" }
    (by decide) (by decide) (by decide)).1
  obtain ⟨e1, he, hp, hq⟩ := h
  rw [he]
  simp [hp, hq]

/-- C8: device key reuse.  A recorded non-blank key is reused without
generation; a fresh key is generated and persisted only when none is
recorded; and two sequential device-start runs for the same handle send the
identical public key. -/
theorem deviceStart_key_reuse (disk : Store) (handle clientName f1 f2 : String)
    (hs : f1.pyStrip = f1) (hne : f1 ≠ "") :
    (deviceStart (deviceStart disk handle clientName f1).disk handle clientName
        f2).sentPublicKey = (deviceStart disk handle clientName f1).sentPublicKey ∧
    (∀ pub, disk.devices (deviceStoreKey handle) = some pub → pub.pyStrip ≠ "" →
      (deviceStart disk handle clientName f1).generated = false ∧
      (deviceStart disk handle clientName f1).sentPublicKey = pub.pyStrip ∧
      (deviceStart disk handle clientName f1).disk = disk) ∧
    ((((disk.devices (deviceStoreKey handle)).getD "").pyStrip = "") →
      (deviceStart disk handle clientName f1).generated = true ∧
      (deviceStart disk handle clientName f1).sentPublicKey = f1 ∧
      (deviceStart disk handle clientName f1).disk.devices
          (deviceStoreKey handle) = some f1) := by
  by_cases hc : (((disk.devices (deviceStoreKey handle)).getD "").pyStrip) = ""
  · refine ⟨?_, ?_, ?_⟩
    · simp [deviceStart, hc, Store.setDevice, hs, hne]
    · intro pub hp hne2
      rw [hp] at hc
      simp at hc
      exact absurd hc hne2
    · intro _
      refine ⟨?_, ?_, ?_⟩ <;> simp [deviceStart, hc, Store.setDevice]
  · refine ⟨?_, ?_, ?_⟩
    · simp [deviceStart, hc]
    · intro pub hp hne2
      refine ⟨?_, ?_, ?_⟩ <;> simp [deviceStart, hc, hp, hne2]
    · intro h
      exact absurd h hc

/-- C8 witness: two concrete sequential device-start runs send the same
key, and the first run generates it. -/
theorem deviceStart_key_reuse_witness :
    (deviceStart (deviceStart emptyStore "dev" "openclaw" "KEY1").disk "dev"
        "openclaw" "KEY2").sentPublicKey =
      (deviceStart emptyStore "dev" "openclaw" "KEY1").sentPublicKey ∧
    (deviceStart emptyStore "dev" "openclaw" "KEY1").sentPublicKey = "KEY1" := by
  refine ⟨(deviceStart_key_reuse emptyStore "dev" "openclaw" "KEY1" "KEY2"
    (by decide) (by decide)).1, by decide⟩

/-- C10: a device handle that is blank after stripping is mapped to the
store key "default": the run behaves exactly like one with the empty
handle, and a generated key is persisted under "default". -/
theorem deviceStart_blank_handle_default (disk : Store)
    (handle clientName freshKey : String) (h : handle.pyStrip = "") :
    deviceStoreKey handle = "default" ∧
    (deviceStart disk handle clientName freshKey).sentPublicKey =
      (deviceStart disk "" clientName freshKey).sentPublicKey ∧
    (∀ k, (deviceStart disk handle clientName freshKey).disk.devices k =
      (deviceStart disk "" clientName freshKey).disk.devices k) ∧
    ((((disk.devices "default").getD "").pyStrip = "") →
      (deviceStart disk handle clientName freshKey).disk.devices "default" =
        some freshKey) := by
  have hk : deviceStoreKey handle = "default" := by simp [deviceStoreKey, h]
  have hk0 : deviceStoreKey "" = "default" := by decide
  refine ⟨hk, ?_, fun k => ?_, fun hcc => ?_⟩
  · by_cases hc : (((disk.devices "default").getD "").pyStrip) = "" <;>
      simp [deviceStart, hk, hk0, hc]
  · by_cases hc : (((disk.devices "default").getD "").pyStrip) = "" <;>
      simp [deviceStart, hk, hk0, hc]
  · simp [deviceStart, hk, Store.setDevice, hcc]

/-- C10 witness: a whitespace-only handle resolves to the "default" store
key and persists the generated key there. -/
theorem deviceStart_blank_handle_default_witness :
    deviceStoreKey "   " = "default" ∧
    (deviceStart emptyStore "   " "openclaw" "K").disk.devices "default" =
      some "K" := by
  have h := deviceStart_blank_handle_default emptyStore "   " "openclaw" "K"
    (by decide)
  exact ⟨h.1, h.2.2.2 (by decide)⟩

end Clawsino
